import Mathlib

/-!
# Verification of the my-mcp-server FTP / Tavily MCP tool servers

Shallow embedding of `src/ftp/ftp_server.py` and
`src/tavily-internet/tavily_server.py`.

The external collaborators (the `ftplib.FTP` transport handle and the
Tavily SDK client) are opaque capabilities in the source; every network
call they serve is modeled as a behaviour value of type `Except _ _`
supplied by the environment of the embedded operation.  Python strings
are modeled by `String`, Python `int` by `Int` (by `Nat` where the
source value is a count or a year), and the Python dict keyed by
connection id — whose values are the opaque transport handles — by its
insertion-ordered key list.
-/

namespace MCP

/-! ## Models of the Python primitives used by the sources

All definitions are structurally recursive on `List Char` so that every
concrete run can be evaluated by the kernel. -/

/-- `startsSeg pat l` is true when `pat` is a leading segment of `l`. -/
def startsSeg : List Char → List Char → Bool
  | [], _ => true
  | _ :: _, [] => false
  | p :: ps, c :: cs => p == c && startsSeg ps cs

/-- `containsSeg pat l`: `pat` occurs contiguously somewhere in `l`. -/
def containsSeg (pat : List Char) : List Char → Bool
  | [] => startsSeg pat []
  | c :: rest => startsSeg pat (c :: rest) || containsSeg pat rest

/-- Python `pat in s` (substring containment). -/
def pyIn (pat s : String) : Bool := containsSeg pat.data s.data

/-- Python `s.lower()` (ASCII model, via `Char.toLower`). -/
def pyLower (s : String) : String := String.mk (s.data.map Char.toLower)

/-- Cut a char list at separator characters, keeping empty pieces
(the behaviour of Python `str.split(sep)`). -/
def splitChars (p : Char → Bool) : List Char → List (List Char)
  | [] => [[]]
  | c :: cs =>
    if p c then [] :: splitChars p cs
    else
      match splitChars p cs with
      | [] => [[c]]
      | piece :: rest => (c :: piece) :: rest

/-- Python `s.split(sep)` for a one-character separator: keeps empties. -/
def pySplitOn (s : String) (sep : Char) : List String :=
  (splitChars (· == sep) s.data).map String.mk

/-- Python `s.split()` with no argument: split on whitespace runs,
dropping empty pieces. -/
def pySplit (s : String) : List String :=
  ((splitChars Char.isWhitespace s.data).filter (· ≠ [])).map String.mk

/-- Python `s.strip()` (whitespace on both ends). -/
def pyStrip (s : String) : String :=
  String.mk (((s.data.dropWhile Char.isWhitespace).reverse.dropWhile Char.isWhitespace).reverse)

/-- Python `s.strip('/')`. -/
def pyStripSlash (s : String) : String :=
  String.mk (((s.data.dropWhile (· == '/')).reverse.dropWhile (· == '/')).reverse)

/-- Python `s.startswith(c)` for a one-character pattern. -/
def pyStartsWith (s : String) (c : Char) : Bool :=
  match s.data with
  | [] => false
  | x :: _ => x == c

/-- Python `c in s` for a single character. -/
def pyHasChar (s : String) (c : Char) : Bool := s.data.contains c

/-- Value of a digit run. -/
def digitsValAux (acc : Nat) : List Char → Nat
  | [] => acc
  | c :: cs => digitsValAux (acc * 10 + (c.toNat - 48)) cs

/-- Python `int(s)` under `try/except ValueError`: `some` on an optional
sign followed by digits, `none` otherwise.  (CPython also accepts
surrounding whitespace, `+` and `_` separators; the sources only feed it
server-provided size tokens, where the cases coincide.) -/
def pyInt? (s : String) : Option Int :=
  match s.data with
  | [] => none
  | '-' :: rest =>
    if !rest.isEmpty && rest.all Char.isDigit then
      some (-(digitsValAux 0 rest : Int))
    else none
  | l =>
    if l.all Char.isDigit then some ((digitsValAux 0 l : Nat) : Int) else none

/-- Python string `<=`: lexicographic comparison by code point. -/
def lexLeq : List Char → List Char → Bool
  | [], _ => true
  | _ :: _, [] => false
  | a :: as, b :: bs =>
    if a.toNat < b.toNat then true
    else if b.toNat < a.toNat then false
    else lexLeq as bs

/-- Python string `<=` on `String`. -/
def pyStrLeq (s t : String) : Bool := lexLeq s.data t.data

/-- Stable insertion: `pyInsert le a l` places `a` before the first
element `b` of `l` with `le a b`. -/
def pyInsert (le : α → α → Bool) (a : α) : List α → List α
  | [] => [a]
  | b :: l => if le a b then a :: b :: l else b :: pyInsert le a l

/-- Python `sorted(l, key=...)` as a stable insertion sort over a boolean
comparison.  CPython `sorted` is a stable sort with respect to the same
total preorder, and stable sorts agree pointwise, so this is the unique
function the source computes. -/
def pySorted (le : α → α → Bool) : List α → List α
  | [] => []
  | a :: l => pyInsert le a (pySorted le l)

/-! ## Transport errors

`ftplib` raises `ftplib.error_perm` for permanent (5xx) server replies;
the handlers of `ftp_server.py` distinguish only that class from every
other exception (`ValueError`, socket errors, ...).  `str(e)` is the
carried message. -/

/-- An exception raised by a transport call. -/
inductive FTPError where
  | permError (msg : String)
  | otherError (msg : String)
deriving DecidableEq, Repr

/-- Python `str(e)`. -/
def FTPError.msg : FTPError → String
  | .permError m => m
  | .otherError m => m

/-! ## The connection registry (`FTPContext`, `ftp_server.py` 28-55) -/

/-- `FTPContext` (lines 28-32): `connections` is the dict keyed by
connection id (with opaque `ftplib.FTP` values, so the model keeps the
insertion-ordered key list) and `current_connection` is the optional
current id. -/
structure FTPContext where
  connections : List String
  current_connection : Option String
deriving DecidableEq, Repr

/-- The state `ftp_lifespan` starts from (lines 35-40). -/
def initialFTPContext : FTPContext :=
  { connections := [], current_connection := none }

/-- Python `connections[connection_id] = ftp`: dict assignment keeps the
position of an existing key and appends a fresh key. -/
def insertKey (conns : List String) (cid : String) : List String :=
  if cid ∈ conns then conns else conns ++ [cid]

/-- Outcome of the transport calls inside `ftp_connect` (`ftp.connect`,
`ftp.login`): `success` carries `ftp.getwelcome()`; `authFail` stands
for `ftplib.error_perm`, `transportFail` for any other exception. -/
inductive ConnectOutcome where
  | success (welcome : String)
  | authFail (msg : String)
  | transportFail (msg : String)
deriving DecidableEq, Repr

/-- `ftp_connect` (lines 84-140): on success the connection is stored
under `connection_id` and made current; on either failure class the
handler returns the failure text and the state is untouched (the store
on lines 125-126 is only reached after `connect`/`login` succeed). -/
def ftp_connect (st : FTPContext) (connection_id host username : String) (port : Nat)
    (outcome : ConnectOutcome) : FTPContext × String :=
  match outcome with
  | .success welcome =>
    ({ connections := insertKey st.connections connection_id,
       current_connection := some connection_id },
     "Connected to " ++ host ++ ":" ++ toString port ++ " as " ++ username ++
       ". Welcome message: " ++ welcome)
  | .authFail e => (st, "Authentication failed: " ++ e)
  | .transportFail e => (st, "Connection failed: " ++ e)

/-- `ftp_disconnect` (lines 143-193).  `closeOutcome` models the
`ftp.quit()` / fallback `ftp.close()` pair on the resolved connection:
`.ok ()` when at least one of the two calls returned (the entry is then
removed), `.error e` when both raised, so the exception reaches the
outer handler and nothing is mutated.  An omitted id resolves to the
current connection; a `None`-or-empty resolved id is reported as "no
active connection" (Python truthiness of `if not connection_id`). -/
def ftp_disconnect (st : FTPContext) (connection_id : Option String)
    (closeOutcome : Except String Unit) : FTPContext × String :=
  let resolved := match connection_id with
    | none => st.current_connection
    | some cid => some cid
  match resolved with
  | none => (st, "No active connection to disconnect")
  | some cid =>
    if cid = "" then (st, "No active connection to disconnect")
    else if cid ∉ st.connections then
      (st, "Connection \x27" ++ cid ++ "\x27 not found")
    else
      match closeOutcome with
      | .error e => (st, "Error disconnecting: " ++ e)
      | .ok _ =>
        ({ connections := st.connections.erase cid,
           current_connection :=
             if st.current_connection = some cid then (st.connections.erase cid).head?
             else st.current_connection },
         "Successfully disconnected from " ++ cid)

/-- `ftp_switch_connection` (lines 225-251): `noop` models
`ftp.voidcmd("NOOP")` on the target connection. -/
def ftp_switch_connection (st : FTPContext) (connection_id : String)
    (noop : Except String Unit) : FTPContext × String :=
  if connection_id ∉ st.connections then
    (st, "Connection \x27" ++ connection_id ++ "\x27 not found")
  else
    match noop with
    | .ok _ =>
      ({ st with current_connection := some connection_id },
       "Switched to connection \x27" ++ connection_id ++ "\x27")
    | .error e =>
      (st, "Connection \x27" ++ connection_id ++ "\x27 is no longer active: " ++ e)

/-- One call to a registry-mutating tool, packaged with the behaviour of
the remote transport during that call. -/
inductive RegistryOp where
  | connect (connection_id host username : String) (port : Nat) (outcome : ConnectOutcome)
  | disconnect (connection_id : Option String) (closeOutcome : Except String Unit)
  | switch (connection_id : String) (noop : Except String Unit)

/-- Dispatch one registry operation. -/
def applyRegistryOp (st : FTPContext) : RegistryOp → FTPContext × String
  | .connect cid host user port outcome => ftp_connect st cid host user port outcome
  | .disconnect cid closeOutcome => ftp_disconnect st cid closeOutcome
  | .switch cid noop => ftp_switch_connection st cid noop

/-- Run a sequence of registry operations from a state. -/
def runRegistryOps (st : FTPContext) : List RegistryOp → FTPContext
  | [] => st
  | op :: ops => runRegistryOps (applyRegistryOp st op).1 ops

/-- Registry invariant: the current connection id, when set, keys an
entry of the connections mapping. -/
def RegistryInv (st : FTPContext) : Prop :=
  ∀ c, st.current_connection = some c → c ∈ st.connections

theorem insertKey_self_mem (conns : List String) (cid : String) :
    cid ∈ insertKey conns cid := by
  unfold insertKey
  split
  · assumption
  · simp

theorem registryInv_connect (st : FTPContext) (cid host user : String) (port : Nat)
    (outcome : ConnectOutcome) (h : RegistryInv st) :
    RegistryInv (ftp_connect st cid host user port outcome).1 := by
  cases outcome with
  | success w =>
    intro d hd
    simp only [ftp_connect, Option.some.injEq] at hd
    subst hd
    exact insertKey_self_mem st.connections cid
  | authFail e => exact h
  | transportFail e => exact h

theorem registryInv_disconnect_resolved (st : FTPContext) (c : String)
    (closeOutcome : Except String Unit) (h : RegistryInv st) :
    RegistryInv (ftp_disconnect st (some c) closeOutcome).1 := by
  unfold ftp_disconnect
  dsimp only
  by_cases hc0 : c = ""
  · rw [if_pos hc0]; exact h
  · rw [if_neg hc0]
    by_cases hmem : c ∈ st.connections
    · rw [if_neg (by simpa using hmem)]
      cases closeOutcome with
      | error e => exact h
      | ok u =>
        intro d hd
        simp only at hd
        by_cases hcur : st.current_connection = some c
        · rw [if_pos hcur] at hd
          exact List.mem_of_mem_head? (by simpa [Option.mem_def] using hd)
        · rw [if_neg hcur] at hd
          have hne : d ≠ c := fun hdc => hcur (hdc ▸ hd)
          exact (List.mem_erase_of_ne hne).mpr (h d hd)
    · rw [if_pos (by simpa using hmem)]; exact h

theorem registryInv_disconnect (st : FTPContext) (cid : Option String)
    (closeOutcome : Except String Unit) (h : RegistryInv st) :
    RegistryInv (ftp_disconnect st cid closeOutcome).1 := by
  cases cid with
  | some c => exact registryInv_disconnect_resolved st c closeOutcome h
  | none =>
    cases hcur : st.current_connection with
    | none =>
      unfold ftp_disconnect
      rw [hcur]
      exact h
    | some c =>
      have : ftp_disconnect st none closeOutcome = ftp_disconnect st (some c) closeOutcome := by
        unfold ftp_disconnect
        rw [hcur]
      rw [this]
      exact registryInv_disconnect_resolved st c closeOutcome h

theorem registryInv_switch (st : FTPContext) (cid : String) (noop : Except String Unit)
    (h : RegistryInv st) : RegistryInv (ftp_switch_connection st cid noop).1 := by
  unfold ftp_switch_connection
  by_cases hmem : cid ∈ st.connections
  · rw [if_neg (by simpa using hmem)]
    cases noop with
    | ok u =>
      intro d hd
      simp only [Option.some.injEq] at hd
      subst hd
      exact hmem
    | error e => exact h
  · rw [if_pos (by simpa using hmem)]; exact h

theorem registryInv_apply (st : FTPContext) (op : RegistryOp) (h : RegistryInv st) :
    RegistryInv ((applyRegistryOp st op).1) := by
  cases op with
  | connect cid host user port outcome => exact registryInv_connect st cid host user port outcome h
  | disconnect cid closeOutcome => exact registryInv_disconnect st cid closeOutcome h
  | switch cid noop => exact registryInv_switch st cid noop h

theorem registryInv_run (st : FTPContext) (h : RegistryInv st) (ops : List RegistryOp) :
    RegistryInv (runRegistryOps st ops) := by
  induction ops generalizing st with
  | nil => exact h
  | cons op ops ih => exact ih _ (registryInv_apply st op h)

/-- C1: for every sequence of connect, disconnect, and switchConnection
operations (each succeeding or failing), after every operation the
registry's `current_connection` is either `none` or a key present in the
connections mapping. -/
theorem c1_registry_invariant (ops : List RegistryOp) :
    RegistryInv (runRegistryOps initialFTPContext ops) := by
  apply registryInv_run
  intro c hc
  simp [initialFTPContext] at hc

/-- C2: connect is atomic on failure: an authentication failure or a
transport failure adds no entry and leaves `current_connection`
unchanged, and from the initial empty state a bad-credential connect
returns the authentication-failure text with both fields still empty. -/
theorem c2_connect_atomic_failure (st : FTPContext) (cid host user : String) (port : Nat)
    (e : String) :
    (ftp_connect st cid host user port (.authFail e)).1 = st ∧
    (ftp_connect st cid host user port (.transportFail e)).1 = st ∧
    ftp_connect initialFTPContext cid host user port (.authFail e) =
      (initialFTPContext, "Authentication failed: " ++ e) :=
  ⟨rfl, rfl, rfl⟩

/-- C8: `ftp_switch_connection` on an id absent from the connections
mapping returns the not-found message with no state change; on a present
id whose NOOP liveness probe raises, it returns the no-longer-active
message with `current_connection` unchanged; only when the probe
succeeds is `current_connection` set to the id. -/
theorem c8_switch_dead (st : FTPContext) (cid : String) (e : String) :
    (cid ∉ st.connections →
      ftp_switch_connection st cid (.error e) =
        (st, "Connection \x27" ++ cid ++ "\x27 not found") ∧
      ftp_switch_connection st cid (.ok ()) =
        (st, "Connection \x27" ++ cid ++ "\x27 not found")) ∧
    (cid ∈ st.connections →
      ftp_switch_connection st cid (.error e) =
        (st, "Connection \x27" ++ cid ++ "\x27 is no longer active: " ++ e) ∧
      ftp_switch_connection st cid (.ok ()) =
        ({ st with current_connection := some cid },
         "Switched to connection \x27" ++ cid ++ "\x27")) := by
  constructor
  · intro hmem
    refine ⟨?_, ?_⟩ <;> (unfold ftp_switch_connection; rw [if_pos hmem])
  · intro hmem
    have hn : ¬ cid ∉ st.connections := by simpa using hmem
    refine ⟨?_, ?_⟩ <;> (unfold ftp_switch_connection; rw [if_neg hn])

/-- Witness for C8 at concrete registries. -/
theorem c8_witness :
    (ftp_switch_connection ⟨["a"], some "a"⟩ "b" (.error "timed out") =
      (⟨["a"], some "a"⟩, "Connection \x27b\x27 not found")) ∧
    (ftp_switch_connection ⟨["a", "b"], some "a"⟩ "b" (.error "timed out") =
      (⟨["a", "b"], some "a"⟩, "Connection \x27b\x27 is no longer active: timed out")) ∧
    (ftp_switch_connection ⟨["a", "b"], some "a"⟩ "b" (.ok ()) =
      (⟨["a", "b"], some "b"⟩, "Switched to connection \x27b\x27")) :=
  ⟨((c8_switch_dead ⟨["a"], some "a"⟩ "b" "timed out").1 (by decide)).1,
   ((c8_switch_dead ⟨["a", "b"], some "a"⟩ "b" "timed out").2 (by decide)).1,
   ((c8_switch_dead ⟨["a", "b"], some "a"⟩ "b" "timed out").2 (by decide)).2⟩

/-- C9: a successful disconnect of the session whose id equals
`current_connection` reassigns `current_connection` to the first
remaining key of the connections mapping in insertion order (`head?` of
the remaining key list, hence `none` when no sessions remain), while a
successful disconnect of a non-current session leaves
`current_connection` unchanged. -/
theorem c9_disconnect_promotion (st : FTPContext) (cid : String)
    (hcid : cid ≠ "") (hmem : cid ∈ st.connections) :
    ((ftp_disconnect st (some cid) (.ok ())).2 =
        "Successfully disconnected from " ++ cid) ∧
    (st.current_connection = some cid →
      (ftp_disconnect st (some cid) (.ok ())).1.current_connection =
        (st.connections.erase cid).head?) ∧
    (st.current_connection ≠ some cid →
      (ftp_disconnect st (some cid) (.ok ())).1.current_connection =
        st.current_connection) := by
  unfold ftp_disconnect
  dsimp only
  rw [if_neg hcid, if_neg (by simpa using hmem)]
  refine ⟨rfl, ?_, ?_⟩
  · intro hcur
    show (if st.current_connection = some cid then (st.connections.erase cid).head?
          else st.current_connection) = (st.connections.erase cid).head?
    rw [if_pos hcur]
  · intro hcur
    show (if st.current_connection = some cid then (st.connections.erase cid).head?
          else st.current_connection) = st.current_connection
    rw [if_neg hcur]

/-- Witness for C9: disconnecting the current session `"a"` of
`["a", "b"]` promotes `"b"`; disconnecting non-current `"b"` keeps
`"a"`. -/
theorem c9_witness :
    ((ftp_disconnect ⟨["a", "b"], some "a"⟩ (some "a") (.ok ())).1.current_connection =
       some "b") ∧
    ((ftp_disconnect ⟨["a", "b"], some "a"⟩ (some "b") (.ok ())).1.current_connection =
       some "a") :=
  ⟨(c9_disconnect_promotion ⟨["a", "b"], some "a"⟩ "a" (by decide) (by decide)).2.1 rfl,
   (c9_disconnect_promotion ⟨["a", "b"], some "a"⟩ "b" (by decide) (by decide)).2.2 (by decide)⟩

/-! ## Resolving the current connection (`_get_current_ftp`, lines 254-264) -/

/-- `_get_current_ftp`: raises `ValueError` (a non-`error_perm`
exception) when there is no current id (`None` or empty, by Python
truthiness of `if not current_id`) or when the current id is missing
from the mapping.  The returned handle is opaque, hence `Unit`. -/
def getCurrentFtp (st : FTPContext) : Except FTPError Unit :=
  match st.current_connection with
  | none => .error (.otherError "No active FTP connection. Use ftp_connect first.")
  | some cid =>
    if cid = "" then
      .error (.otherError "No active FTP connection. Use ftp_connect first.")
    else if cid ∈ st.connections then .ok ()
    else .error (.otherError ("Connection \x27" ++ cid ++ "\x27 not found"))

/-! ## `ftp_create_directory_tree` (lines 1034-1083) -/

/-- The `for part in parts` loop of `ftp_create_directory_tree`
(lines 1057-1074).  `mkd path` models `ftp.mkd(path)`.  Empty parts are
skipped; after extending `current_path`, a successful creation appends
it to `created_dirs`; an `error_perm` whose lowered text contains
`"exists"` is a non-fatal continue; any other exception aborts the loop
and is re-raised to the tool's outer handler. -/
def createTreeLoop (mkd : String → Except FTPError Unit) :
    List String → String → List String → Except FTPError (List String)
  | [], _, created => .ok created
  | part :: rest, current_path, created =>
    if part = "" then createTreeLoop mkd rest current_path created
    else
      let path := if current_path = "" then part else current_path ++ "/" ++ part
      match mkd path with
      | .ok _ => createTreeLoop mkd rest path (created ++ [path])
      | .error (.permError e) =>
        if pyIn "exists" (pyLower e) then createTreeLoop mkd rest path created
        else .error (.permError e)
      | .error (.otherError e) => .error (.otherError e)

/-- `ftp_create_directory_tree`: the tool body with its outer handler;
every failure class is encoded in the returned status string. -/
def ftp_create_directory_tree (st : FTPContext) (directory_path : String)
    (mkd : String → Except FTPError Unit) : String :=
  match getCurrentFtp st with
  | .error e => "Error creating directory tree: " ++ e.msg
  | .ok _ =>
    match createTreeLoop mkd (pySplitOn (pyStripSlash directory_path) '/') "" [] with
    | .error e => "Error creating directory tree: " ++ e.msg
    | .ok created =>
      if created.isEmpty then "Directory path already exists: " ++ directory_path
      else "Successfully created directories: " ++ ", ".intercalate created

/-- Nonempty segments of a slash path
(`directory_path.strip('/').split('/')` with empty parts skipped). -/
def pathSegments (directory_path : String) : List String :=
  (pySplitOn (pyStripSlash directory_path) '/').filter (· ≠ "")

/-- Cumulative paths of a segment list, continuing from `current`:
for `["a", "b", "c"]` from `""` this is `["a", "a/b", "a/b/c"]`. -/
def cumulPaths (current : String) : List String → List String
  | [] => []
  | s :: rest =>
    let path := if current = "" then s else current ++ "/" ++ s
    path :: cumulPaths path rest

/-- Independent description of the creation pass: attempt `mkd` on each
path in order, collect the successfully created ones, continue past
permission errors whose lowered text contains `"exists"`, abort with the
exception on any other failure. -/
def treeSpec (mkd : String → Except FTPError Unit) :
    List String → Except FTPError (List String)
  | [] => .ok []
  | p :: rest =>
    match mkd p with
    | .ok _ => (treeSpec mkd rest).map (fun l => p :: l)
    | .error (.permError e) =>
      if pyIn "exists" (pyLower e) then treeSpec mkd rest
      else .error (.permError e)
    | .error (.otherError e) => .error (.otherError e)

theorem createTreeLoop_eq_treeSpec (mkd : String → Except FTPError Unit)
    (parts : List String) (cp : String) (created : List String) :
    createTreeLoop mkd parts cp created =
      (treeSpec mkd (cumulPaths cp (parts.filter (· ≠ "")))).map (created ++ ·) := by
  induction parts generalizing cp created with
  | nil => simp [createTreeLoop, cumulPaths, treeSpec, Except.map]
  | cons part rest ih =>
    by_cases hp : part = ""
    · simp only [createTreeLoop, if_pos hp, List.filter_cons, hp]
      rw [ih]
      simp
    · simp only [createTreeLoop, if_neg hp, List.filter_cons]
      have : (part ≠ "") = True := by simp [hp]
      simp only [decide_eq_true_eq, hp, not_false_iff, if_true, this, if_pos trivial]
      simp only [cumulPaths, treeSpec]
      cases hmkd : mkd (if cp = "" then part else cp ++ "/" ++ part) with
      | ok u =>
        rw [ih]
        cases htr : treeSpec mkd (cumulPaths (if cp = "" then part else cp ++ "/" ++ part)
            (rest.filter (· ≠ ""))) with
        | ok l => simp [Except.map]
        | error e => simp [Except.map]
      | error err =>
        cases err with
        | permError e =>
          dsimp only
          by_cases hex : pyIn "exists" (pyLower e)
          · rw [if_pos hex, if_pos hex, ih]
          · rw [if_neg hex, if_neg hex]
            simp [Except.map]
        | otherError e => simp [Except.map]

/-- C4 (amended): `ftp_create_directory_tree` splits the path into
segments, attempts to create each cumulative path in order, continues
past any creation error whose lowered text contains `"exists"`, and on
any other creation error aborts with the message
`"Error creating directory tree: " ++ str(e)` — the list of cumulative
paths successfully created before the fatal step is *not* included in
the abort message (it is reported only when the whole pass succeeds). -/
theorem c4_amended_create_tree (st : FTPContext) (directory_path : String)
    (mkd : String → Except FTPError Unit) (h : getCurrentFtp st = .ok ()) :
    ftp_create_directory_tree st directory_path mkd =
      match treeSpec mkd (cumulPaths "" (pathSegments directory_path)) with
      | .ok [] => "Directory path already exists: " ++ directory_path
      | .ok created => "Successfully created directories: " ++ ", ".intercalate created
      | .error e => "Error creating directory tree: " ++ e.msg := by
  unfold ftp_create_directory_tree
  rw [h, createTreeLoop_eq_treeSpec]
  show (match (treeSpec mkd (cumulPaths "" (pathSegments directory_path))).map
      (List.append []) with
    | .error e => "Error creating directory tree: " ++ e.msg
    | .ok created =>
      if created.isEmpty then "Directory path already exists: " ++ directory_path
      else "Successfully created directories: " ++ ", ".intercalate created) = _
  cases htr : treeSpec mkd (cumulPaths "" (pathSegments directory_path)) with
  | ok created =>
    cases created with
    | nil => simp [Except.map]
    | cons a l => simp [Except.map]
  | error e => simp [Except.map]

/-- Concrete `ftp.mkd` behaviour: creating `"zqx"` succeeds, creating
anything else fails with a permanent non-"exists" error. -/
def mkdFatal : String → Except FTPError Unit := fun p =>
  if p = "zqx" then .ok () else .error (.permError "550 No access")

/-- C4 counterexample: creating the tree `"zqx/b"`, where `"zqx"` is
created and then `"zqx/b"` fails fatally, returns an abort message that
does not mention the successfully created prefix `"zqx"` anywhere — so
the claim that the fatal-abort report carries the list of prefixes
created before the fatal step is false on the code. -/
theorem c4_counterexample :
    ftp_create_directory_tree ⟨["s1"], some "s1"⟩ "zqx/b" mkdFatal =
      "Error creating directory tree: 550 No access" ∧
    pyIn "zqx" "Error creating directory tree: 550 No access" = false := by
  exact ⟨by decide, by decide⟩

/-- Concrete `ftp.mkd` behaviour for the amended-claim witness:
`"a"` already exists, everything else is created. -/
def mkdExistsA : String → Except FTPError Unit := fun p =>
  if p = "a" then .error (.permError "550 a: File exists") else .ok ()

/-- Witness for the amended C4: creating `"/a/b"` where `"a"` already
exists reports exactly the newly created `"a/b"`. -/
theorem c4_amended_witness :
    ftp_create_directory_tree ⟨["s1"], some "s1"⟩ "/a/b" mkdExistsA =
      "Successfully created directories: a/b" :=
  c4_amended_create_tree ⟨["s1"], some "s1"⟩ "/a/b" mkdExistsA rfl

/-! ## `ftp_download_content` (lines 806-864) -/

/-- Behaviour of the remote side and the codec environment during one
`ftp_download_content` call: `sizeQuery` models `ftp.size(remote_path)`
(`ftplib` returns `None` when the reply is not a 213), `retr` models
`ftp.retrbinary` accumulating the transferred bytes into the `BytesIO`
buffer, `b64encode` models `base64.b64encode(...).decode('ascii')`, and
`decode` models `content_bytes.decode(encoding)` (which may raise
`UnicodeDecodeError`, a non-`error_perm` exception). -/
structure DownloadBehavior where
  sizeQuery : Except FTPError (Option Int)
  retr : Except FTPError (List Nat)
  b64encode : List Nat → String
  decode : String → List Nat → Except FTPError String

/-- The result dictionary of `ftp_download_content`: the too-large
error dict `{"error": ..., "size": ...}` (line 833), the success dict
(line 855), or the generic error dict `{"error": str(e)}` of the outer
handler (line 864). -/
inductive DownloadResult where
  | tooLarge (error : String) (size : Int)
  | success (content : String) (size : Nat) (binary_mode : Bool) (encoding : String)
  | failure (error : String)
deriving DecidableEq, Repr

/-- The transfer-and-decode tail of `ftp_download_content`
(lines 841-860), reached when the size pre-check passes or the SIZE
command is unsupported. -/
def downloadTransfer (beh : DownloadBehavior) (binary_mode : Bool) (encoding : String) :
    Except FTPError DownloadResult := do
  let content_bytes ← beh.retr
  if binary_mode then
    pure (.success (beh.b64encode content_bytes) content_bytes.length binary_mode "base64")
  else do
    let content ← beh.decode encoding content_bytes
    pure (.success content content_bytes.length binary_mode encoding)

/-- The `try` body of `ftp_download_content`: resolve the current
connection, run the size pre-check (`if size and size > max_size_mb *
1024 * 1024`, with `except ftplib.error_perm: pass` skipping an
unsupported SIZE command), then transfer. -/
def ftp_download_content_body (st : FTPContext) (binary_mode : Bool)
    (encoding : String) (max_size_mb : Int) (beh : DownloadBehavior) :
    Except FTPError DownloadResult := do
  let _ ← getCurrentFtp st
  match beh.sizeQuery with
  | .ok (some size) =>
    if size ≠ 0 ∧ size > max_size_mb * 1024 * 1024 then
      pure (.tooLarge ("File too large (" ++ toString size ++
        " bytes). Maximum allowed: " ++ toString max_size_mb ++ "MB") size)
    else downloadTransfer beh binary_mode encoding
  | .ok none => downloadTransfer beh binary_mode encoding
  | .error (.permError _) => downloadTransfer beh binary_mode encoding
  | .error e => throw e

/-- `ftp_download_content`: the full tool; the outer handler encodes
every exception as the `{"error": str(e)}` dict. -/
def ftp_download_content (st : FTPContext) (remote_path : String) (binary_mode : Bool)
    (encoding : String) (max_size_mb : Int) (beh : DownloadBehavior) : DownloadResult :=
  match ftp_download_content_body st binary_mode encoding max_size_mb beh with
  | .ok r => r
  | .error e => .failure e.msg

/-- Concrete behaviour for the C5 counterexample: the size query
reports `0` and the transfer returns two bytes decoding to `"hi"`. -/
def behZeroSize : DownloadBehavior :=
  { sizeQuery := .ok (some 0)
    retr := .ok [104, 105]
    b64encode := fun _ => "aGk="
    decode := fun _ _ => .ok "hi" }

/-- C5 counterexample: with `max_size_mb = -1` the size query succeeds
and reports size `0`, which is strictly greater than
`max_size_mb * 1024 * 1024 = -1048576`, so the claim demands a failure
carrying the reported size with no transfer; but the truthiness guard
`if size and ...` skips the pre-check for size `0`, the transfer runs,
and the call returns the downloaded content. -/
theorem c5_counterexample :
    (0 : Int) > -1 * 1024 * 1024 ∧
    ftp_download_content ⟨["s1"], some "s1"⟩ "f.txt" false "utf-8" (-1) behZeroSize =
      .success "hi" 2 false "utf-8" :=
  ⟨by decide, by rfl⟩

/-- C5 (amended): when the size query succeeds and reports a *nonzero*
size strictly greater than `max_size_mb` megabytes, the call fails with
the too-large error carrying the reported size, and no transfer is
performed and no content is written to the output (the result is the
content-free error dict, independent of the transfer behaviour); when
the size query fails with a permission-class error, the download
proceeds exactly as the unchecked transfer. -/
theorem c5_amended_size_bound (st : FTPContext) (remote_path : String)
    (binary_mode : Bool) (encoding : String) (max_size_mb size : Int) (e : String)
    (beh : DownloadBehavior) :
    (getCurrentFtp st = .ok () → beh.sizeQuery = .ok (some size) → size ≠ 0 →
      size > max_size_mb * 1024 * 1024 →
      ftp_download_content st remote_path binary_mode encoding max_size_mb beh =
        .tooLarge ("File too large (" ++ toString size ++
          " bytes). Maximum allowed: " ++ toString max_size_mb ++ "MB") size ∧
      (∀ beh₂ : DownloadBehavior, beh₂.sizeQuery = beh.sizeQuery →
        ftp_download_content st remote_path binary_mode encoding max_size_mb beh₂ =
        ftp_download_content st remote_path binary_mode encoding max_size_mb beh)) ∧
    (getCurrentFtp st = .ok () → beh.sizeQuery = .error (.permError e) →
      ftp_download_content st remote_path binary_mode encoding max_size_mb beh =
        match downloadTransfer beh binary_mode encoding with
        | .ok r => r
        | .error err => .failure err.msg) := by
  constructor
  · intro hok hsz hnz hgt
    have hbody : ∀ beh₂ : DownloadBehavior, beh₂.sizeQuery = .ok (some size) →
        ftp_download_content st remote_path binary_mode encoding max_size_mb beh₂ =
          .tooLarge ("File too large (" ++ toString size ++
            " bytes). Maximum allowed: " ++ toString max_size_mb ++ "MB") size := by
      intro beh₂ hsz₂
      unfold ftp_download_content ftp_download_content_body
      rw [hok, hsz₂]
      dsimp only [bind, Except.bind]
      rw [if_pos ⟨hnz, hgt⟩]
      rfl
    constructor
    · exact hbody beh hsz
    · intro beh₂ hsz₂
      rw [hbody beh hsz, hbody beh₂ (by rw [hsz₂, hsz])]
  · intro hok hperm
    unfold ftp_download_content ftp_download_content_body
    rw [hok, hperm]
    dsimp only [bind, Except.bind]

/-- Concrete behaviour reporting a 2 MiB remote file. -/
def behBig : DownloadBehavior :=
  { sizeQuery := .ok (some 2097152)
    retr := .ok [1]
    b64encode := fun _ => ""
    decode := fun _ _ => .ok "" }

/-- Concrete behaviour whose SIZE command is rejected with a permanent
error; the transfer itself yields one byte decoding to `"h"`. -/
def behNoSize : DownloadBehavior :=
  { sizeQuery := .error (.permError "550 SIZE not allowed")
    retr := .ok [104]
    b64encode := fun _ => ""
    decode := fun _ _ => .ok "h" }

/-- Witness for the amended C5: a 2097152-byte remote file with a 1 MB
bound fails with the too-large dict carrying 2097152, and a
permission-refused size query falls through to the plain transfer. -/
theorem c5_amended_witness :
    ftp_download_content ⟨["s1"], some "s1"⟩ "big.bin" false "utf-8" 1 behBig =
      .tooLarge "File too large (2097152 bytes). Maximum allowed: 1MB" 2097152 ∧
    ftp_download_content ⟨["s1"], some "s1"⟩ "f.txt" false "utf-8" 1 behNoSize =
      .success "h" 1 false "utf-8" :=
  ⟨((c5_amended_size_bound ⟨["s1"], some "s1"⟩ "big.bin" false "utf-8" 1 2097152 ""
      behBig).1 rfl rfl (by decide) (by decide)).1,
   (c5_amended_size_bound ⟨["s1"], some "s1"⟩ "f.txt" false "utf-8" 1 0
      "550 SIZE not allowed" behNoSize).2 rfl rfl⟩

/-! ## Directory listings (`ftp_list_directory`, lines 409-563) -/

/-- `FTPFileInfo` (lines 67-73). -/
structure FTPFileInfo where
  name : String
  type : String
  size : Option Int := none
  modified : Option String := none
  permissions : Option String := none
deriving DecidableEq, Repr

/-- `FTPDirectoryListing` (lines 76-81). -/
structure FTPDirectoryListing where
  current_directory : String
  files : List FTPFileInfo
  total_files : Nat
  total_directories : Nat
deriving DecidableEq, Repr

/-- The facts dict of one MLSD entry
(`facts.get('type'/'size'/'modify'/'perm')`). -/
structure MLSDFacts where
  type? : Option String := none
  size? : Option String := none
  modify? : Option String := none
  perm? : Option String := none
deriving DecidableEq, Repr

/-- Behaviour of the remote server during one `ftp_list_directory`
call.  Commands are modeled as response values (`cwd` answers per path
argument); a failing MLSD raises at command time, before any entry is
delivered, as `ftplib` does for a rejected MLSD. -/
structure ListingServer where
  pwd : Except FTPError String
  cwd : String → Except FTPError Unit
  mlsd : Except FTPError (List (String × MLSDFacts))
  listLines : Except FTPError (List String)
  nlst : Except FTPError (List String)

/-- Ambient environment: `datetime.now().year` and the
`datetime.strptime('%Y%m%d%H%M%S')`-then-`strftime` reformat of an MLSD
modify fact (`none` models the `ValueError` that keeps the raw
value). -/
structure ListingEnv where
  currentYear : Nat
  reformatModify : String → Option String

/-- `int(size) if size else None` on the optional MLSD size fact
(line 461): an unparsable nonempty fact raises `ValueError`, which is
not caught by the `error_perm` handler and propagates. -/
def mlsdSize (size? : Option String) : Except FTPError (Option Int) :=
  match size? with
  | some s =>
    if s = "" then pure none
    else
      match pyInt? s with
      | some n => pure (some n)
      | none => throw (.otherError ("invalid literal for int() with base 10: " ++ s))
  | none => pure none

/-- The modify-fact reformat (lines 448-456): only a truthy fact is
reformatted, and a `ValueError` keeps the raw value. -/
def mlsdModified (env : ListingEnv) (modify? : Option String) : Option String :=
  match modify? with
  | some m => if m = "" then some m else some ((env.reformatModify m).getD m)
  | none => none

/-- The MLSD loop (lines 442-471): skip `.`/`..`, read the facts,
append the entry and tally it by the raw `type` fact. -/
def processMLSD (env : ListingEnv) :
    List (String × MLSDFacts) → Except FTPError (List FTPFileInfo × Nat × Nat)
  | [] => .ok ([], 0, 0)
  | (name, facts) :: rest =>
    if name = "." ∨ name = ".." then processMLSD env rest
    else do
      let file_type := facts.type?.getD "file"
      let size ← mlsdSize facts.size?
      let rec_ ← processMLSD env rest
      pure ({ name := name
              type := if file_type = "dir" then "directory" else "file"
              size := size
              modified := mlsdModified env facts.modify?
              permissions := facts.perm? } :: rec_.1,
            (if file_type = "dir" then rec_.2.1 else rec_.2.1 + 1),
            (if file_type = "dir" then rec_.2.2 + 1 else rec_.2.2))

/-- Parse one line of the legacy `LIST` output (lines 479-521): `none`
when the line is blank, has fewer than 9 whitespace-separated tokens,
or names `.`/`..`; otherwise token 0 is the permission string (leading
`d` means directory), token 4 the size (files only, `None` on an
unparsable token), tokens 5-7 the date triplet (`:` in token 7 means a
time-of-day with the current year, otherwise token 7 is the year), and
tokens 8+ joined by single spaces the name. -/
def parseListLine (currentYear : Nat) (line : String) : Option FTPFileInfo :=
  match pySplit line with
  | p0 :: _p1 :: _p2 :: _p3 :: p4 :: p5 :: p6 :: p7 :: p8 :: tail =>
    let name := " ".intercalate (p8 :: tail)
    if name = "." ∨ name = ".." then none
    else
      let file_type := if pyStartsWith p0 'd' then "directory" else "file"
      let size := if file_type = "file" then pyInt? p4 else none
      let modified :=
        if pyHasChar p7 ':' then
          toString currentYear ++ "-" ++ p5 ++ "-" ++ p6 ++ " " ++ p7
        else p7 ++ "-" ++ p5 ++ "-" ++ p6
      some { name := name, type := file_type, size := size,
             modified := some modified, permissions := some p0 }
  | _ => none

/-- The `LIST` fallback loop (lines 476-528): parsed entries in line
order, tallied as files or directories. -/
def processLIST (currentYear : Nat) (lines : List String) :
    List FTPFileInfo × Nat × Nat :=
  let files := lines.filterMap (parseListLine currentYear)
  (files,
   (files.filter (fun f => f.type = "file")).length,
   (files.filter (fun f => f.type = "directory")).length)

/-- The directory probe of the bare-name branch (lines 536-545): `pwd`,
`cwd name`, `cwd` back; an `error_perm` from any of the three calls
classifies the entry as a file, any other exception propagates. -/
def probeName (srv : ListingServer) (name : String) : Except FTPError Bool :=
  match (do
    let original_pwd ← srv.pwd
    let _ ← srv.cwd name
    srv.cwd original_pwd : Except FTPError Unit) with
  | .ok _ => .ok true
  | .error (.permError _) => .ok false
  | .error e => .error e

/-- The `nlst` fallback loop (lines 530-548). -/
def processNames (srv : ListingServer) :
    List String → Except FTPError (List FTPFileInfo × Nat × Nat)
  | [] => .ok ([], 0, 0)
  | name :: rest =>
    if name = "." ∨ name = ".." then processNames srv rest
    else do
      let isDir ← probeName srv name
      let rec_ ← processNames srv rest
      pure ({ name := name, type := if isDir then "directory" else "file" } :: rec_.1,
            (if isDir then rec_.2.1 else rec_.2.1 + 1),
            (if isDir then rec_.2.2 + 1 else rec_.2.2))

/-- The sort comparison of line 556: the Python key
`(x.type == 'file', x.name.lower())` under the ascending lexicographic
tuple order (`False < True`). -/
def listingLE (a b : FTPFileInfo) : Bool :=
  (!(a.type == "file") && (b.type == "file")) ||
  ((a.type == "file") == (b.type == "file") &&
    pyStrLeq (pyLower a.name) (pyLower b.name))

/-- The `if directory:`-guarded `ftp.cwd` calls of lines 430-431 and
551-552 (a missing or empty `directory` is falsy and skips the
change). -/
def cwdIf (srv : ListingServer) (doCwd : Bool) (path : String) :
    Except FTPError Unit :=
  if doCwd then srv.cwd path else pure ()

/-- Entry production (lines 439-548): MLSD when `detailed`, falling
back to the `LIST` parse when MLSD is rejected with an `error_perm`,
and `nlst` with per-name probing when not `detailed`. -/
def listingEntries (srv : ListingServer) (env : ListingEnv) (detailed : Bool) :
    Except FTPError (List FTPFileInfo × Nat × Nat) :=
  if detailed then
    match srv.mlsd with
    | .ok entries => processMLSD env entries
    | .error (.permError _) => do
      let lines ← srv.listLines
      pure (processLIST env.currentYear lines)
    | .error e => throw e
  else do
    let names ← srv.nlst
    processNames srv names

/-- The `try` body of `ftp_list_directory` (lines 425-559): resolve the
current connection, remember and optionally change the working
directory, produce the entries, change back, and return the listing
sorted by the key `(type == 'file', name.lower())`. -/
def ftp_list_directory_body (st : FTPContext) (directory : Option String)
    (detailed : Bool) (srv : ListingServer) (env : ListingEnv) :
    Except FTPError FTPDirectoryListing := do
  let _ ← getCurrentFtp st
  let original_dir ← srv.pwd
  let doCwd := match directory with
    | some d => d != ""
    | none => false
  let _ ← cwdIf srv doCwd (directory.getD "")
  let current_dir ← srv.pwd
  let res ← listingEntries srv env detailed
  let _ ← cwdIf srv doCwd original_dir
  pure { current_directory := current_dir
         files := pySorted listingLE res.1
         total_files := res.2.1
         total_directories := res.2.2 }

/-- `ftp_list_directory`: the outer handler logs and *re-raises*
(lines 561-563), so the tool propagates every exception unchanged. -/
def ftp_list_directory (st : FTPContext) (directory : Option String) (detailed : Bool)
    (srv : ListingServer) (env : ListingEnv) : Except FTPError FTPDirectoryListing :=
  match ftp_list_directory_body st directory detailed srv env with
  | .ok l => .ok l
  | .error e => .error e

/-! ### Unravelling `Except` binds -/

theorem except_bind_ok {ε α β : Type} {x : Except ε α} {f : α → Except ε β} {b : β}
    (h : x >>= f = .ok b) : ∃ a, x = .ok a ∧ f a = .ok b := by
  cases x with
  | ok a => exact ⟨a, rfl, h⟩
  | error e => simp [bind, Except.bind] at h

/-! ### Dot entries are never materialized -/

/-- No listing entry is named `.` or `..`. -/
def NoDots (files : List FTPFileInfo) : Prop :=
  ∀ f ∈ files, f.name ≠ "." ∧ f.name ≠ ".."

theorem processMLSD_noDots (env : ListingEnv) :
    ∀ (entries : List (String × MLSDFacts)) (res : List FTPFileInfo × Nat × Nat),
      processMLSD env entries = .ok res → NoDots res.1
  | [], res, h => by
    rw [processMLSD] at h
    cases h
    intro f hf
    simp at hf
  | (name, facts) :: rest, res, h => by
    rw [processMLSD] at h
    by_cases hdot : name = "." ∨ name = ".."
    · rw [if_pos hdot] at h
      exact processMLSD_noDots env rest res h
    · rw [if_neg hdot] at h
      obtain ⟨sz, hsz, h⟩ := except_bind_ok h
      obtain ⟨r, hr, h⟩ := except_bind_ok h
      simp only [pure, Except.pure, Except.ok.injEq] at h
      subst h
      push_neg at hdot
      intro f hf
      rcases List.mem_cons.mp hf with rfl | hf
      · exact hdot
      · exact processMLSD_noDots env rest r hr f hf

theorem processNames_noDots (srv : ListingServer) :
    ∀ (names : List String) (res : List FTPFileInfo × Nat × Nat),
      processNames srv names = .ok res → NoDots res.1
  | [], res, h => by
    rw [processNames] at h
    cases h
    intro f hf
    simp at hf
  | name :: rest, res, h => by
    rw [processNames] at h
    by_cases hdot : name = "." ∨ name = ".."
    · rw [if_pos hdot] at h
      exact processNames_noDots srv rest res h
    · rw [if_neg hdot] at h
      obtain ⟨d, hd, h⟩ := except_bind_ok h
      obtain ⟨r, hr, h⟩ := except_bind_ok h
      simp only [pure, Except.pure, Except.ok.injEq] at h
      subst h
      push_neg at hdot
      intro f hf
      rcases List.mem_cons.mp hf with rfl | hf
      · exact hdot
      · exact processNames_noDots srv rest r hr f hf

theorem parseListLine_noDots (currentYear : Nat) (line : String) (f : FTPFileInfo)
    (h : parseListLine currentYear line = some f) :
    f.name ≠ "." ∧ f.name ≠ ".." := by
  unfold parseListLine at h
  split at h
  · dsimp only at h
    split at h
    · cases h
    · rename_i hdot
      rw [Option.some.injEq] at h
      subst h
      push_neg at hdot
      exact hdot
  · cases h

theorem processLIST_noDots (currentYear : Nat) (lines : List String) :
    NoDots (processLIST currentYear lines).1 := by
  intro f hf
  simp only [processLIST, List.mem_filterMap] at hf
  obtain ⟨line, _, hp⟩ := hf
  exact parseListLine_noDots currentYear line f hp

/-! ### `pySorted` sorts -/

theorem mem_pyInsert (le : α → α → Bool) (a x : α) (l : List α) :
    x ∈ pyInsert le a l ↔ x = a ∨ x ∈ l := by
  induction l with
  | nil => simp [pyInsert]
  | cons b l ih =>
    rw [pyInsert]
    split
    · simp only [List.mem_cons]
    · simp only [List.mem_cons, ih]
      tauto

theorem pairwise_pyInsert (le : α → α → Bool)
    (total : ∀ a b, le a b || le b a) (trans : ∀ a b c, le a b → le b c → le a c)
    (a : α) (l : List α) (h : l.Pairwise (le · ·)) :
    (pyInsert le a l).Pairwise (le · ·) := by
  induction l with
  | nil => simp [pyInsert]
  | cons b l ih =>
    rw [pyInsert]
    rcases List.pairwise_cons.mp h with ⟨hb, hl⟩
    by_cases hab : le a b
    · rw [if_pos hab]
      refine List.pairwise_cons.mpr ⟨?_, h⟩
      intro x hx
      rcases List.mem_cons.mp hx with rfl | hx
      · exact hab
      · exact trans a b x hab (hb x hx)
    · rw [if_neg hab]
      refine List.pairwise_cons.mpr ⟨?_, ih hl⟩
      intro x hx
      rcases (mem_pyInsert le a x l).mp hx with hxa | hx
      · rw [hxa]
        rcases Bool.or_eq_true _ _ |>.mp (total a b) with h1 | h1
        · exact absurd h1 hab
        · exact h1
      · exact hb x hx

theorem pairwise_pySorted (le : α → α → Bool)
    (total : ∀ a b, le a b || le b a) (trans : ∀ a b c, le a b → le b c → le a c)
    (l : List α) : (pySorted le l).Pairwise (le · ·) := by
  induction l with
  | nil => simp [pySorted]
  | cons a l ih => exact pairwise_pyInsert le total trans a _ ih

theorem mem_pySorted (le : α → α → Bool) (x : α) (l : List α) :
    x ∈ pySorted le l ↔ x ∈ l := by
  induction l with
  | nil => simp [pySorted]
  | cons a l ih =>
    rw [pySorted, mem_pyInsert le a x (pySorted le l), ih, List.mem_cons]

/-! ### The listing comparison is total and transitive -/

theorem lexLeq_total : ∀ (a b : List Char), lexLeq a b || lexLeq b a
  | [], b => by simp [lexLeq]
  | a :: as, [] => by simp [lexLeq]
  | a :: as, b :: bs => by
    rw [lexLeq, lexLeq]
    by_cases h1 : a.toNat < b.toNat
    · have h2 : ¬ b.toNat < a.toNat := by omega
      simp [h1, h2]
    · by_cases h2 : b.toNat < a.toNat
      · simp [h1, h2]
      · simp only [h1, h2, if_false]
        exact lexLeq_total as bs

theorem lexLeq_trans : ∀ (a b c : List Char), lexLeq a b → lexLeq b c → lexLeq a c
  | [], b, c => by
    intro h1 h2
    simp [lexLeq]
  | a :: as, [], c => by
    intro h1 h2
    simp [lexLeq] at h1
  | a :: as, b :: bs, [] => by
    intro h1 h2
    simp [lexLeq] at h2
  | a :: as, b :: bs, c :: cs => by
    intro h1 h2
    rw [lexLeq] at h1 h2 ⊢
    by_cases hab : a.toNat < b.toNat
    · by_cases hbc : b.toNat < c.toNat
      · have hac : a.toNat < c.toNat := by omega
        rw [if_pos hac]
      · by_cases hcb : c.toNat < b.toNat
        · rw [if_neg hbc, if_pos hcb] at h2
          cases h2
        · have hac : a.toNat < c.toNat := by omega
          rw [if_pos hac]
    · by_cases hba : b.toNat < a.toNat
      · rw [if_neg hab, if_pos hba] at h1
        cases h1
      · rw [if_neg hab, if_neg hba] at h1
        by_cases hbc : b.toNat < c.toNat
        · have hac : a.toNat < c.toNat := by omega
          rw [if_pos hac]
        · by_cases hcb : c.toNat < b.toNat
          · rw [if_neg hbc, if_pos hcb] at h2
            cases h2
          · rw [if_neg hbc, if_neg hcb] at h2
            have hac : ¬ a.toNat < c.toNat := by omega
            have hca : ¬ c.toNat < a.toNat := by omega
            rw [if_neg hac, if_neg hca]
            exact lexLeq_trans as bs cs h1 h2

theorem pyStrLeq_total (s t : String) : pyStrLeq s t || pyStrLeq t s :=
  lexLeq_total s.data t.data

theorem pyStrLeq_trans (s t u : String) : pyStrLeq s t → pyStrLeq t u → pyStrLeq s u :=
  lexLeq_trans s.data t.data u.data

theorem listingLE_total (a b : FTPFileInfo) : listingLE a b || listingLE b a := by
  unfold listingLE
  cases hA : a.type == "file" <;> cases hB : b.type == "file" <;>
    cases hab : pyStrLeq (pyLower a.name) (pyLower b.name) <;>
    cases hba : pyStrLeq (pyLower b.name) (pyLower a.name) <;>
    first
      | decide
      | (have htot := pyStrLeq_total (pyLower a.name) (pyLower b.name)
         rw [hab, hba] at htot
         cases htot)

theorem listingLE_trans (a b c : FTPFileInfo) :
    listingLE a b → listingLE b c → listingLE a c := by
  unfold listingLE
  cases hA : a.type == "file" <;> cases hB : b.type == "file" <;>
    cases hC : c.type == "file" <;>
    cases hab : pyStrLeq (pyLower a.name) (pyLower b.name) <;>
    cases hbc : pyStrLeq (pyLower b.name) (pyLower c.name) <;>
    cases hac : pyStrLeq (pyLower a.name) (pyLower c.name) <;>
    first
      | decide
      | (intro h1 h2
         have htr := pyStrLeq_trans _ _ _ hab hbc
         rw [hac] at htr
         cases htr)

/-! ### The listing theorems -/

theorem ftp_list_directory_eq_body (st : FTPContext) (directory : Option String)
    (detailed : Bool) (srv : ListingServer) (env : ListingEnv) :
    ftp_list_directory st directory detailed srv env =
      ftp_list_directory_body st directory detailed srv env := by
  unfold ftp_list_directory
  cases ftp_list_directory_body st directory detailed srv env <;> rfl

theorem listingEntries_noDots (srv : ListingServer) (env : ListingEnv)
    (detailed : Bool) (res : List FTPFileInfo × Nat × Nat)
    (h : listingEntries srv env detailed = .ok res) : NoDots res.1 := by
  unfold listingEntries at h
  cases detailed with
  | true =>
    rw [if_pos rfl] at h
    cases hm : srv.mlsd with
    | ok entries =>
      rw [hm] at h
      exact processMLSD_noDots env entries res h
    | error e =>
      rw [hm] at h
      cases e with
      | permError m =>
        obtain ⟨lines, hl, h⟩ := except_bind_ok h
        simp only [pure, Except.pure, Except.ok.injEq] at h
        subst h
        exact processLIST_noDots env.currentYear lines
      | otherError m =>
        simp only [throw, throwThe, MonadExceptOf.throw] at h
        cases h
  | false =>
    rw [if_neg (by simp)] at h
    obtain ⟨names, hn, h⟩ := except_bind_ok h
    exact processNames_noDots srv names res h

theorem ftp_list_directory_body_files (st : FTPContext) (directory : Option String)
    (detailed : Bool) (srv : ListingServer) (env : ListingEnv) (L : FTPDirectoryListing)
    (h : ftp_list_directory_body st directory detailed srv env = .ok L) :
    ∃ pre, NoDots pre ∧ L.files = pySorted listingLE pre := by
  unfold ftp_list_directory_body at h
  obtain ⟨u0, h0, h⟩ := except_bind_ok h
  obtain ⟨od, hod, h⟩ := except_bind_ok h
  dsimp only at h
  obtain ⟨u1, h1, h⟩ := except_bind_ok h
  obtain ⟨cd, hcd, h⟩ := except_bind_ok h
  obtain ⟨res, hres, h⟩ := except_bind_ok h
  obtain ⟨u2, h2, h⟩ := except_bind_ok h
  simp only [pure, Except.pure, Except.ok.injEq] at h
  subst h
  exact ⟨res.1, listingEntries_noDots srv env detailed res hres, rfl⟩

/-- C6: every directory listing returned by `ftp_list_directory` —
whether produced by MLSD, by the legacy `LIST` parse, or by the bare
`nlst` probing — contains no entry named `.` or `..`, and its `files`
sequence is sorted with directories before files and, within each
group, case-insensitively by name (the pairwise `listingLE` order on
the key `(type == 'file', name.lower())`). -/
theorem c6_listing_normalized (st : FTPContext) (directory : Option String)
    (detailed : Bool) (srv : ListingServer) (env : ListingEnv) (L : FTPDirectoryListing)
    (h : ftp_list_directory st directory detailed srv env = .ok L) :
    (∀ f ∈ L.files, f.name ≠ "." ∧ f.name ≠ "..") ∧
    L.files.Pairwise (fun a b => listingLE a b) := by
  have hbody : ftp_list_directory_body st directory detailed srv env = .ok L := by
    rw [← ftp_list_directory_eq_body]
    exact h
  obtain ⟨pre, hnd, hfiles⟩ :=
    ftp_list_directory_body_files st directory detailed srv env L hbody
  constructor
  · intro f hf
    rw [hfiles] at hf
    exact hnd f ((mem_pySorted listingLE f pre).mp hf)
  · rw [hfiles]
    exact pairwise_pySorted listingLE listingLE_total listingLE_trans pre

/-- Server behaviour for the C6 witness: MLSD delivers `.`/`..`, a file
and a directory. -/
def srvMLSD : ListingServer :=
  { pwd := .ok "/"
    cwd := fun _ => .ok ()
    mlsd := .ok [(".", { type? := some "cdir" }),
                 ("a.txt", { type? := some "file", size? := some "5" }),
                 ("sub", { type? := some "dir" }),
                 ("..", { type? := some "pdir" })]
    listLines := .error (.otherError "unused")
    nlst := .error (.otherError "unused") }

/-- Environment for the listing witnesses. -/
def envY : ListingEnv := { currentYear := 2024, reformatModify := fun _ => none }

/-- The listing the C6 witness run produces: the dot entries are gone
and the directory sorts before the file. -/
def listingOut : FTPDirectoryListing :=
  { current_directory := "/"
    files := [{ name := "sub", type := "directory" },
              { name := "a.txt", type := "file", size := some 5 }]
    total_files := 1
    total_directories := 1 }

/-- Witness for C6: a concrete MLSD run through `ftp_list_directory`. -/
theorem c6_witness :
    (∀ f ∈ listingOut.files, f.name ≠ "." ∧ f.name ≠ "..") ∧
    listingOut.files.Pairwise (fun a b => listingLE a b) :=
  c6_listing_normalized ⟨["s1"], some "s1"⟩ none true srvMLSD envY listingOut rfl

/-- C7: when a free-text `LIST` line splits into at least 9
whitespace-separated tokens (and does not name `.`/`..`), the parsed
entry takes token 0 as the permission string with a leading `d`
classifying a directory, token 4 as the size recorded only for files,
tokens 5-7 as the date — a `:` in token 7 meaning time-of-day with the
current year, otherwise token 7 being the year with no time-of-day —
and tokens 8 onward joined by single spaces as the name. -/
theorem c7_legacy_parse (currentYear : Nat) (line : String)
    (p0 p1 p2 p3 p4 p5 p6 p7 p8 : String) (tail : List String)
    (hsp : pySplit line = p0 :: p1 :: p2 :: p3 :: p4 :: p5 :: p6 :: p7 :: p8 :: tail)
    (hname : " ".intercalate (p8 :: tail) ≠ "." ∧ " ".intercalate (p8 :: tail) ≠ "..") :
    parseListLine currentYear line = some
      { name := " ".intercalate (p8 :: tail)
        type := if pyStartsWith p0 'd' then "directory" else "file"
        size := if pyStartsWith p0 'd' then none else pyInt? p4
        modified := some (if pyHasChar p7 ':' then
            toString currentYear ++ "-" ++ p5 ++ "-" ++ p6 ++ " " ++ p7
          else p7 ++ "-" ++ p5 ++ "-" ++ p6)
        permissions := some p0 } := by
  unfold parseListLine
  rw [hsp]
  dsimp only
  rw [if_neg (by simpa using hname)]
  by_cases hd : pyStartsWith p0 'd' <;> simp [hd]

/-- Witness for C7: one directory line with a year date and a
spaced name, one file line with a time-of-day date. -/
theorem c7_witness :
    parseListLine 2024 "drwxr-xr-x 2 u g 4096 Jan 15 2023 my dir" = some
      { name := "my dir", type := "directory", size := none,
        modified := some "2023-Jan-15", permissions := some "drwxr-xr-x" } ∧
    parseListLine 2024 "-rw-r--r-- 1 u g 1234 Jan 15 10:30 notes.txt" = some
      { name := "notes.txt", type := "file", size := some 1234,
        modified := some "2024-Jan-15 10:30", permissions := some "-rw-r--r--" } :=
  ⟨c7_legacy_parse 2024 "drwxr-xr-x 2 u g 4096 Jan 15 2023 my dir"
      "drwxr-xr-x" "2" "u" "g" "4096" "Jan" "15" "2023" "my" ["dir"]
      (by rfl) (by decide),
   c7_legacy_parse 2024 "-rw-r--r-- 1 u g 1234 Jan 15 10:30 notes.txt"
      "-rw-r--r--" "1" "u" "g" "1234" "Jan" "15" "10:30" "notes.txt" []
      (by rfl) (by decide)⟩

/-! ## The Tavily search server (`tavily_server.py`) -/

/-- `TavilyContext` (lines 43-47): the optional API key and whether a
client object was constructed at startup. -/
structure TavilyContext where
  api_key : Option String
  hasClient : Bool

/-- `_get_tavily_client` (lines 110-118): a missing or empty key
(Python truthiness) and a missing client are `ValueError`s. -/
def getTavilyClient (tctx : TavilyContext) : Except String Unit :=
  match tctx.api_key with
  | none =>
    .error "Tavily API key not found. Please set TAVILY_API_KEY environment variable."
  | some k =>
    if k = "" then
      .error "Tavily API key not found. Please set TAVILY_API_KEY environment variable."
    else if tctx.hasClient then .ok ()
    else .error "Tavily client not initialized"

/-- The keyword dictionary passed to `client.search` (lines 169-188):
`days` is added only when not `None`, the domain lists only when truthy
(non-`None` and nonempty). -/
structure SearchParams where
  query : String
  search_depth : String
  topic : String
  max_results : Int
  include_answer : Bool
  include_raw_content : Bool
  include_images : Bool
  days : Option Int
  include_domains : Option (List String)
  exclude_domains : Option (List String)
deriving DecidableEq, Repr

/-- One raw result dict of the backend response (`item.get(...)`,
lines 200-208).  The float relevance score is modeled by an
integer-valued placeholder; no claim concerns score values. -/
structure RawSearchItem where
  title : Option String := none
  url : Option String := none
  content : Option String := none
  raw_content : Option String := none
  score : Option Int := none
  published_date : Option String := none
deriving DecidableEq, Repr

/-- One raw image dict (lines 213-217). -/
structure RawImage where
  url : Option String := none
  description : Option String := none
deriving DecidableEq, Repr

/-- The backend response dict (`data.get(...)`). -/
structure SearchData where
  answer : Option String := none
  results : List RawSearchItem := []
  images : List RawImage := []
deriving DecidableEq, Repr

/-- `TavilySearchItem` (lines 70-77). -/
structure TavilySearchItem where
  title : String
  url : String
  content : String
  raw_content : Option String
  score : Int
  published_date : Option String
deriving DecidableEq, Repr

/-- `TavilyImage` (lines 80-84). -/
structure TavilyImage where
  url : String
  description : String
deriving DecidableEq, Repr

/-- `TavilySearchResult` (lines 86-95); `response_time` (a float
second count measured from the wall clock) is modeled by the
environment-provided elapsed value. -/
structure TavilySearchResult where
  query : String
  answer : String
  results : List TavilySearchItem
  images : List TavilyImage
  search_depth : String
  topic : String
  response_time : Nat
  total_results : Nat
deriving DecidableEq, Repr

/-- The result-parsing loop (lines 199-209). -/
def parseSearchResults (items : List RawSearchItem) : List TavilySearchItem :=
  items.map (fun item =>
    { title := item.title.getD ""
      url := item.url.getD ""
      content := item.content.getD ""
      raw_content := item.raw_content
      score := item.score.getD 0
      published_date := item.published_date })

/-- The image-parsing loop (lines 212-218). -/
def parseSearchImages (imgs : List RawImage) : List TavilyImage :=
  imgs.map (fun img =>
    { url := img.url.getD "", description := img.description.getD "" })

/-- `if search_depth not in ["basic", "advanced"]: search_depth = "basic"`
(lines 157-158). -/
def normalizeDepth (search_depth : String) : String :=
  if search_depth = "basic" ∨ search_depth = "advanced" then search_depth else "basic"

/-- `if topic not in ["general", "news", "finance"]: topic = "general"`
(lines 160-161). -/
def normalizeTopic (topic : String) : String :=
  if topic = "general" ∨ topic = "news" ∨ topic = "finance" then topic else "general"

/-- `if max_results < 1 or max_results > 20: max_results = 5`
(lines 163-164). -/
def normalizeMaxResults (max_results : Int) : Int :=
  if max_results < 1 ∨ max_results > 20 then 5 else max_results

/-- The truthiness-guarded optional domain list (lines 183-187). -/
def domainsParam (domains : Option (List String)) : Option (List String) :=
  match domains with
  | some l => if l.isEmpty then none else some l
  | none => none

/-- The `try` body of `tavily_search` (lines 153-232): resolve the
client, silently normalize the parameters, call the backend with the
normalized dictionary, and build the result echoing the normalized
`search_depth` and `topic`. -/
def tavily_search_body (tctx : TavilyContext) (query search_depth topic : String)
    (days : Option Int) (max_results : Int)
    (include_domains exclude_domains : Option (List String))
    (include_answer include_raw_content include_images : Bool)
    (backend : SearchParams → Except String SearchData) (elapsed : Nat) :
    Except String TavilySearchResult := do
  let _ ← getTavilyClient tctx
  let search_depth := normalizeDepth search_depth
  let topic := normalizeTopic topic
  let max_results := normalizeMaxResults max_results
  let params : SearchParams :=
    { query := query
      search_depth := search_depth
      topic := topic
      max_results := max_results
      include_answer := include_answer
      include_raw_content := include_raw_content
      include_images := include_images
      days := days
      include_domains := domainsParam include_domains
      exclude_domains := domainsParam exclude_domains }
  let data ← backend params
  pure { query := query
         answer := data.answer.getD ""
         results := parseSearchResults data.results
         images := parseSearchImages data.images
         search_depth := search_depth
         topic := topic
         response_time := elapsed
         total_results := (parseSearchResults data.results).length }

/-- `tavily_search` (lines 121-237): the outer handler wraps any
exception in `ValueError(f"Search failed: {e}")` and *raises* it. -/
def tavily_search (tctx : TavilyContext) (query search_depth topic : String)
    (days : Option Int) (max_results : Int)
    (include_domains exclude_domains : Option (List String))
    (include_answer include_raw_content include_images : Bool)
    (backend : SearchParams → Except String SearchData) (elapsed : Nat) :
    Except String TavilySearchResult :=
  match tavily_search_body tctx query search_depth topic days max_results
      include_domains exclude_domains include_answer include_raw_content
      include_images backend elapsed with
  | .ok r => .ok r
  | .error e => .error ("Search failed: " ++ e)

/-- C10: for *every* call with a configured client whose backend
answers the normalized parameter dictionary, the backend is called with
the normalized `search_depth`, `topic` and `max_results` (the caller's
originals appear nowhere in the dictionary) and the result echoes the
normalized `search_depth` and `topic` with no error reported; and,
independently of the other parameters, an unrecognized `search_depth`
normalizes to `"basic"`, an unrecognized `topic` to `"general"`, and a
`max_results` outside `1..20` to `5`. -/
theorem c10_tavily_normalization (tctx : TavilyContext)
    (query search_depth topic : String) (days : Option Int) (max_results : Int)
    (include_domains exclude_domains : Option (List String))
    (include_answer include_raw_content include_images : Bool)
    (backend : SearchParams → Except String SearchData) (elapsed : Nat)
    (data : SearchData)
    (hc : getTavilyClient tctx = .ok ())
    (hb : backend
      { query := query
        search_depth := normalizeDepth search_depth
        topic := normalizeTopic topic
        max_results := normalizeMaxResults max_results
        include_answer := include_answer
        include_raw_content := include_raw_content
        include_images := include_images
        days := days
        include_domains := domainsParam include_domains
        exclude_domains := domainsParam exclude_domains } = .ok data) :
    (tavily_search tctx query search_depth topic days max_results include_domains
        exclude_domains include_answer include_raw_content include_images backend
        elapsed =
      .ok { query := query
            answer := data.answer.getD ""
            results := parseSearchResults data.results
            images := parseSearchImages data.images
            search_depth := normalizeDepth search_depth
            topic := normalizeTopic topic
            response_time := elapsed
            total_results := (parseSearchResults data.results).length }) ∧
    (search_depth ≠ "basic" ∧ search_depth ≠ "advanced" →
      normalizeDepth search_depth = "basic") ∧
    (topic ≠ "general" ∧ topic ≠ "news" ∧ topic ≠ "finance" →
      normalizeTopic topic = "general") ∧
    (max_results < 1 ∨ max_results > 20 → normalizeMaxResults max_results = 5) := by
  refine ⟨?_, ?_, ?_, ?_⟩
  · unfold tavily_search tavily_search_body
    rw [hc]
    dsimp only [bind, Except.bind]
    rw [hb]
    rfl
  · intro hd
    unfold normalizeDepth
    rw [if_neg (by tauto)]
  · intro ht
    unfold normalizeTopic
    rw [if_neg (by tauto)]
  · intro hm
    unfold normalizeMaxResults
    rw [if_pos hm]

/-- Backend answering only the dictionary
`("basic", "general", 5)` of the all-parameters-normalized witness
run. -/
def searchBackend : SearchParams → Except String SearchData := fun p =>
  if p = { query := "q", search_depth := "basic", topic := "general", max_results := 5,
           include_answer := true, include_raw_content := false,
           include_images := false, days := none, include_domains := none,
           exclude_domains := none }
  then .ok {} else .error "wrong params"

/-- Backend answering only the dictionary `("basic", "news", 5)` of the
mixed witness run, where solely `search_depth` is unrecognized. -/
def searchBackendNews : SearchParams → Except String SearchData := fun p =>
  if p = { query := "q", search_depth := "basic", topic := "news", max_results := 5,
           include_answer := true, include_raw_content := false,
           include_images := false, days := none, include_domains := none,
           exclude_domains := none }
  then .ok {} else .error "wrong params"

/-- Witness for C10, exercising the normalizations independently: a
call where only `search_depth` is unrecognized (depth `"deep"`, valid
topic `"news"`, valid `max_results = 5`) reaches the backend as
`("basic", "news", 5)` and echoes those with no error; and on a run
with depth `"deep"`, topic `"sports"`, `max_results = 0` each
replacement value is as claimed. -/
theorem c10_witness :
    (tavily_search ⟨some "k", true⟩ "q" "deep" "news" none 5 none none true false
        false searchBackendNews 0 =
      .ok { query := "q", answer := "", results := [], images := [],
            search_depth := "basic", topic := "news", response_time := 0,
            total_results := 0 }) ∧
    normalizeDepth "deep" = "basic" ∧
    normalizeTopic "sports" = "general" ∧
    normalizeMaxResults 0 = 5 :=
  ⟨(c10_tavily_normalization ⟨some "k", true⟩ "q" "deep" "news" none 5 none none
      true false false searchBackendNews 0 {} rfl rfl).1,
   (c10_tavily_normalization ⟨some "k", true⟩ "q" "deep" "sports" none 0 none none
      true false false searchBackend 0 {} rfl rfl).2.1 (by decide),
   (c10_tavily_normalization ⟨some "k", true⟩ "q" "deep" "sports" none 0 none none
      true false false searchBackend 0 {} rfl rfl).2.2.1 (by decide),
   (c10_tavily_normalization ⟨some "k", true⟩ "q" "deep" "sports" none 0 none none
      true false false searchBackend 0 {} rfl rfl).2.2.2 (by decide)⟩

/-! ## C3: where exceptions cross the tool boundary -/

/-- C3 counterexample: with no active connection, `ftp_list_directory`
re-raises the `ValueError` from `_get_current_ftp` instead of returning
a payload, and with no configured API key `tavily_search` raises
`ValueError("Search failed: ...")` — both tools let the error escape
the tool boundary as an exception, falsifying the claim that every
tool returns a payload encoding the failure. -/
theorem c3_counterexample :
    ftp_list_directory initialFTPContext none true srvMLSD envY =
      .error (.otherError "No active FTP connection. Use ftp_connect first.") ∧
    tavily_search ⟨none, false⟩ "q" "basic" "general" none 5 none none true false
        false searchBackend 0 =
      .error
        "Search failed: Tavily API key not found. Please set TAVILY_API_KEY environment variable." :=
  ⟨rfl, rfl⟩

/-- C3 (amended): the embedded FTP tools other than
`ftp_list_directory` (connect, disconnect, switch connection,
directory-tree creation, download-content) return payloads encoding
every failure by construction of their handlers, but
`ftp_list_directory` re-raises any exception of its body unchanged and
`tavily_search` raises `ValueError("Search failed: " ++ str(e))` for
any exception of its body, so these two tools propagate errors to the
calling agent; `ftp_download_content`, by contrast, encodes any
exception of its body as the `{"error": str(e)}` payload. -/
theorem c3_amended_error_propagation
    (st : FTPContext) (directory : Option String) (detailed : Bool)
    (srv : ListingServer) (env : ListingEnv) (e : FTPError)
    (tctx : TavilyContext) (query sd tp : String) (days : Option Int) (mr : Int)
    (incd excd : Option (List String)) (ia irc ii : Bool)
    (backend : SearchParams → Except String SearchData) (elapsed : Nat) (es : String)
    (remote_path : String) (binary_mode : Bool) (encoding : String)
    (max_size_mb : Int) (beh : DownloadBehavior) :
    (ftp_list_directory_body st directory detailed srv env = .error e →
      ftp_list_directory st directory detailed srv env = .error e) ∧
    (tavily_search_body tctx query sd tp days mr incd excd ia irc ii backend
        elapsed = .error es →
      tavily_search tctx query sd tp days mr incd excd ia irc ii backend elapsed =
        .error ("Search failed: " ++ es)) ∧
    (ftp_download_content_body st binary_mode encoding max_size_mb beh = .error e →
      ftp_download_content st remote_path binary_mode encoding max_size_mb beh =
        .failure e.msg) := by
  refine ⟨?_, ?_, ?_⟩
  · intro hb
    unfold ftp_list_directory
    rw [hb]
  · intro hb
    unfold tavily_search
    rw [hb]
  · intro hb
    unfold ftp_download_content
    rw [hb]

/-- Witness for the amended C3 at concrete failing runs. -/
theorem c3_amended_witness :
    (ftp_list_directory initialFTPContext (some "/pub") true srvMLSD envY =
      .error (.otherError "No active FTP connection. Use ftp_connect first.")) ∧
    (tavily_search ⟨some "k", false⟩ "q" "basic" "general" none 5 none none true
        false false searchBackend 0 =
      .error "Search failed: Tavily client not initialized") ∧
    (ftp_download_content initialFTPContext "f.txt" false "utf-8" 10 behZeroSize =
      .failure "No active FTP connection. Use ftp_connect first.") :=
  ⟨(c3_amended_error_propagation initialFTPContext (some "/pub") true srvMLSD envY
      (.otherError "No active FTP connection. Use ftp_connect first.")
      ⟨some "k", false⟩ "q" "basic" "general" none 5 none none true false false
      searchBackend 0 "Tavily client not initialized"
      "f.txt" false "utf-8" 10 behZeroSize).1 rfl,
   (c3_amended_error_propagation initialFTPContext (some "/pub") true srvMLSD envY
      (.otherError "No active FTP connection. Use ftp_connect first.")
      ⟨some "k", false⟩ "q" "basic" "general" none 5 none none true false false
      searchBackend 0 "Tavily client not initialized"
      "f.txt" false "utf-8" 10 behZeroSize).2.1 rfl,
   (c3_amended_error_propagation initialFTPContext (some "/pub") true srvMLSD envY
      (.otherError "No active FTP connection. Use ftp_connect first.")
      ⟨some "k", false⟩ "q" "basic" "general" none 5 none none true false false
      searchBackend 0 "Tavily client not initialized"
      "f.txt" false "utf-8" 10 behZeroSize).2.2 rfl⟩

end MCP
